import Mathlib

/-!
Shallow embedding of the credit-ledger core of `src/server.js`
(virtual-credits gaming platform). JavaScript numbers are modelled as
rationals (`ℚ`); `Math.floor` is `Int.floor`; in-place mutation of the
object returned by `Array.find` is modelled by replacing the first
matching list element; the explicit `array.map(x => x.id === id ? obj : x)`
write-backs in the source are modelled by the corresponding `List.map`.
Fresh uuids and ISO timestamps are passed in as parameters. Each HTTP
handler becomes a function from the database value (plus its parameters)
to a response paired with the resulting database value; error responses
carry the HTTP status code and the message string from the source.
-/

/-- Result of a handler: `ok` payload or an error with HTTP status code
and message, as produced by `res.status(code).json({error: msg})`. -/
inductive Res (α : Type) where
  | ok : α → Res α
  | err : Nat → String → Res α
deriving DecidableEq, Repr

/-- User record (`db.data.users[i]`). Fields not read or written by the
ledger operations (email, password hash, role, name) are omitted. -/
structure User where
  id : String
  credits : ℚ
deriving DecidableEq, Repr

/-- Withdrawal request record (`db.data.withdraws[i]`), as created at
line 136 of server.js. `processedAt` is absent until a decision. -/
structure Withdraw where
  id : String
  userId : String
  amount : ℚ
  upi : String
  utr : String
  status : String
  createdAt : Nat
  processedAt : Option Nat
deriving DecidableEq, Repr

/-- Photo record (`db.data.photos[i]`); only the fields the vote handler
touches are kept. -/
structure Photo where
  id : String
  challengeId : String
  votes : ℚ
deriving DecidableEq, Repr

/-- Per-game configuration (`db.data.gameConfigs[gameId]`). -/
structure GameConfig where
  enabled : Bool
  cost : ℚ
  feePercent : ℚ
  odds : List ℚ
  payoutMultipliers : List ℚ
deriving DecidableEq, Repr

/-- Game-play log entry (`db.data.gamePlays[i]`). The simple handler
(line 286) records only cost and award; the odds-aware handler
(line 337) also records fee, effective stake and multiplier, hence the
`Option` fields. -/
structure PlayRec where
  id : String
  userId : String
  gameId : String
  cost : ℚ
  fee : Option ℚ
  effectiveStake : Option ℚ
  multiplier : Option ℚ
  award : ℚ
  createdAt : Nat
deriving DecidableEq, Repr

/-- System fee record (`db.data.systemFees[i]`, line 334). -/
structure FeeRec where
  id : String
  gameId : String
  fee : ℚ
  collectedAt : Nat
deriving DecidableEq, Repr

/-- The lowdb datastore `db.data`, restricted to the collections the
ledger operations use. `gameConfigs` is a JS object keyed by game id,
modelled as an association list. -/
structure DB where
  users : List User
  withdraws : List Withdraw
  photos : List Photo
  gameConfigs : List (String × GameConfig)
  gamePlays : List PlayRec
  systemFees : List FeeRec
deriving DecidableEq, Repr

/-- Replace the first element satisfying `p` by `f` of it: the model of
mutating, in place, the object returned by `Array.prototype.find`. -/
def updateFirst (p : α → Bool) (f : α → α) : List α → List α
  | [] => []
  | a :: as => if p a then f a :: as else a :: updateFirst p f as

/-- Balance of a user as the store reports it (`find` by id, then
`credits`). -/
def creditsOf (d : DB) (uid : String) : Option ℚ :=
  (d.users.find? (fun u => u.id == uid)).map (fun u => u.credits)

/-- Vote tally of a photo within a challenge, as the vote handler looks
it up. -/
def votesOf (d : DB) (cid pid : String) : Option ℚ :=
  (d.photos.find? (fun p => p.id == pid && p.challengeId == cid)).map
    (fun p => p.votes)

/-- POST /api/wallet/withdraw (server.js lines 130-141). `newId` is the
fresh uuid, `now` the creation timestamp. The authenticated user is
looked up without an existence check; JS would throw on `user.credits`
if absent, modelled as a 500 response. -/
def requestWithdrawal (d : DB) (userId : String) (amount : ℚ)
    (upi utr : Option String) (newId : String) (now : Nat) :
    Res Withdraw × DB :=
  if amount ≤ 0 then (Res.err 400 "Invalid amount", d) else
  match d.users.find? (fun u => u.id == userId) with
  | none => (Res.err 500 "TypeError", d)
  | some user =>
    if user.credits < amount then (Res.err 400 "Insufficient credits", d)
    else
      let w : Withdraw :=
        { id := newId, userId := user.id, amount := amount,
          upi := upi.getD "", utr := utr.getD "", status := "pending",
          createdAt := now, processedAt := none }
      (Res.ok w, { d with withdraws := d.withdraws ++ [w] })

/-- POST /api/admin/withdraws/:id/:action (server.js lines 150-166).
Sets the status from the action, stamps `processedAt`, and on approve
debits the amount when the user exists. There is no check of the prior
status and no balance check. -/
def decideWithdrawal (d : DB) (wid action : String) (now : Nat) :
    Res Withdraw × DB :=
  match d.withdraws.find? (fun x => x.id == wid) with
  | none => (Res.err 404 "Not found", d)
  | some w =>
    if ¬ (action == "approve" || action == "reject") then
      (Res.err 400 "Bad action", d)
    else
      let newStatus := if action == "approve" then "approved" else "rejected"
      let w' := { w with status := newStatus, processedAt := some now }
      let users' :=
        if newStatus == "approved" then
          match d.users.find? (fun u => u.id == w.userId) with
          | some user =>
            updateFirst (fun u => u.id == w.userId)
              (fun _ => { user with credits := user.credits - w.amount })
              d.users
          | none => d.users
        else d.users
      (Res.ok w',
       { d with
         withdraws := updateFirst (fun x => x.id == wid) (fun _ => w')
           d.withdraws,
         users := users' })

/-- The vote count: `Math.max(1, Number(amount) || 1)` (line 221);
`none` models an absent or non-numeric `amount`. -/
def voteCount (amount : Option ℚ) : ℚ :=
  max 1 (match amount with
         | none => 1
         | some q => if q = 0 then 1 else q)

/-- POST /api/challenges/:id/photos/:photoId/vote (server.js lines
218-235). `costPerVote` is fixed at 10. The photo is looked up before
the user; a missing user would make JS throw at `user.credits`,
modelled as a 500 response. -/
def vote (d : DB) (userId cid pid : String) (amount : Option ℚ) :
    Res (Photo × ℚ) × DB :=
  let costPerVote : ℚ := 10
  let votes := voteCount amount
  match d.photos.find? (fun p => p.id == pid && p.challengeId == cid) with
  | none => (Res.err 404 "Photo not found", d)
  | some photo =>
    match d.users.find? (fun u => u.id == userId) with
    | none => (Res.err 500 "TypeError", d)
    | some user =>
      let totalCost := votes * costPerVote
      if user.credits < totalCost then
        (Res.err 400 "Insufficient credits", d)
      else
        let photo' := { photo with votes := photo.votes + votes }
        let user' := { user with credits := user.credits - totalCost }
        (Res.ok (photo', user'.credits),
         { d with
           photos := d.photos.map
             (fun p => if p.id == photo.id then photo' else p),
           users := d.users.map
             (fun u => if u.id == user.id then user' else u) })

/-- First POST /api/play handler (server.js lines 271-292): deducts the
request-supplied `cost` and credits back `Number(result) || 0`.
`result := none` models an absent or non-numeric `result` field. -/
def playSimple (d : DB) (userId gameId : String) (cost : ℚ)
    (result : Option ℚ) (playId : String) (now : Nat) :
    Res (ℚ × PlayRec) × DB :=
  if gameId == "" then (Res.err 400 "Missing params", d) else
  match d.users.find? (fun u => u.id == userId) with
  | none => (Res.err 404 "User not found", d)
  | some user =>
    if user.credits < cost then (Res.err 400 "Insufficient credits", d)
    else
      let award : ℚ := match result with
                       | none => 0
                       | some q => if q = 0 then 0 else q
      let newCredits :=
        if award > 0 then user.credits - cost + award
        else user.credits - cost
      let play : PlayRec :=
        { id := playId, userId := user.id, gameId := gameId, cost := cost,
          fee := none, effectiveStake := none, multiplier := none,
          award := award, createdAt := now }
      (Res.ok (newCredits, play),
       { d with
         gamePlays := d.gamePlays ++ [play],
         users := d.users.map
           (fun u => if u.id == user.id
                     then { user with credits := newCredits } else u) })

/-- The odds walk of the second play handler (server.js lines 320-328):
accumulate the odds; at the first index where the drawn sample `r` is
at most the running sum, take that index into the multipliers
(`Number(multipliers[i]) || 0`, i.e. 0 when out of range); if the walk
finishes without firing, the multiplier stays 0. -/
def walkOdds (r : ℚ) : List ℚ → List ℚ → ℚ → ℚ
  | [], _, _ => 0
  | o :: os, ms, cum =>
    if r ≤ cum + o then ms.headD 0
    else walkOdds r os ms.tail (cum + o)

/-- Chosen multiplier for sample `r` against a config (walk starts with
`cumulative = 0`). -/
def chooseMultiplier (odds multipliers : List ℚ) (r : ℚ) : ℚ :=
  walkOdds r odds multipliers 0

/-- Second POST /api/play handler (server.js lines 298-343): config and
odds aware. `rnd` is the `Math.random()` sample; `feeId`/`playId` are
the fresh uuids. -/
def playOdds (d : DB) (userId gameId : String) (rnd : ℚ)
    (feeId playId : String) (now : Nat) : Res (ℚ × PlayRec) × DB :=
  if gameId == "" then (Res.err 400 "Missing gameId", d) else
  match d.gameConfigs.find? (fun kv => kv.1 == gameId) with
  | none => (Res.err 404 "Game config not found", d)
  | some kv =>
    let cfg := kv.2
    if ¬ cfg.enabled then (Res.err 400 "Game is disabled", d) else
    match d.users.find? (fun u => u.id == userId) with
    | none => (Res.err 404 "User not found", d)
    | some user =>
      let cost := cfg.cost
      if user.credits < cost then (Res.err 400 "Insufficient credits", d)
      else
        let feePercent := cfg.feePercent
        let fee : ℚ := (Int.floor (cost * feePercent / 100) : ℚ)
        let effectiveStake := cost - fee
        let chosenMultiplier :=
          chooseMultiplier cfg.odds cfg.payoutMultipliers rnd
        let award : ℚ := (Int.floor (effectiveStake * chosenMultiplier) : ℚ)
        let newCredits :=
          if award > 0 then user.credits - cost + award
          else user.credits - cost
        let play : PlayRec :=
          { id := playId, userId := user.id, gameId := gameId, cost := cost,
            fee := some fee, effectiveStake := some effectiveStake,
            multiplier := some chosenMultiplier, award := award,
            createdAt := now }
        (Res.ok (newCredits, play),
         { d with
           systemFees := d.systemFees ++
             [{ id := feeId, gameId := gameId, fee := fee,
                collectedAt := now }],
           gamePlays := d.gamePlays ++ [play],
           users := d.users.map
             (fun u => if u.id == user.id
                       then { user with credits := newCredits } else u) })

/-- Partial patch accepted by PUT /api/admin/games/:gameId; `none`
models an absent field (`payload.x !== undefined` guard). -/
structure ConfigPatch where
  cost : Option ℚ
  feePercent : Option ℚ
  payoutMultipliers : Option (List ℚ)
  odds : Option (List ℚ)
  enabled : Option Bool
deriving DecidableEq, Repr

/-- Field-by-field application of a patch (server.js lines 360-364). -/
def applyPatch (cur : GameConfig) (p : ConfigPatch) : GameConfig :=
  { cur with
    cost := p.cost.getD cur.cost,
    feePercent := p.feePercent.getD cur.feePercent,
    payoutMultipliers := p.payoutMultipliers.getD cur.payoutMultipliers,
    odds := p.odds.getD cur.odds,
    enabled := p.enabled.getD cur.enabled }

/-- PUT /api/admin/games/:gameId (server.js lines 352-368): 404 when the
config does not exist, otherwise apply the patch and store the result.
No validation of any field is performed. -/
def updateGameConfig (d : DB) (gameId : String) (p : ConfigPatch) :
    Res GameConfig × DB :=
  match d.gameConfigs.find? (fun kv => kv.1 == gameId) with
  | none => (Res.err 404 "Game not found", d)
  | some kv =>
    let cur := applyPatch kv.2 p
    (Res.ok cur,
     { d with
       gameConfigs := updateFirst (fun x => x.1 == gameId)
         (fun _ => (gameId, cur)) d.gameConfigs })

/-! ### Helper lemmas about the list-mutation models -/

/-- Looking a record up after replacing the first match by `v` (with `v`
still matching) yields `v` exactly when the lookup succeeded before. -/
theorem find?_updateFirst (p : α → Bool) (v : α) (hv : p v = true) :
    ∀ l : List α,
      (updateFirst p (fun _ => v) l).find? p = (l.find? p).map (fun _ => v)
  | [] => rfl
  | a :: l => by
    by_cases h : p a
    · simp [updateFirst, h, List.find?_cons, hv]
    · simp [updateFirst, h, List.find?_cons, find?_updateFirst p v hv l]

/-- Looking a record up after the `array.map(x => matches ? updated : x)`
write-back yields the updated record exactly when the lookup succeeded
before. -/
theorem find?_map_replace (p : α → Bool) (v : α) (hv : p v = true) :
    ∀ l : List α,
      (l.map (fun x => if p x then v else x)).find? p
        = (l.find? p).map (fun _ => v)
  | [] => rfl
  | a :: l => by
    by_cases h : p a
    · simp [h, List.find?_cons, hv]
    · simp [h, List.find?_cons, find?_map_replace p v hv l]

/-! ### C9: withdrawal requests do not touch the balance -/

/-- C9: a successful withdrawal request appends a new record with status
pending and returns it; the users list — in particular the requesting
user balance — is exactly unchanged (the debit happens only at
approval). -/
theorem C9_requestWithdrawal_pending_no_debit
    (d : DB) (uid : String) (amount : ℚ) (upi utr : Option String)
    (newId : String) (now : Nat) (user : User)
    (hpos : 0 < amount)
    (hu : d.users.find? (fun u => u.id == uid) = some user)
    (hbal : ¬ user.credits < amount) :
    requestWithdrawal d uid amount upi utr newId now =
      (Res.ok
        { id := newId, userId := user.id, amount := amount,
          upi := upi.getD "", utr := utr.getD "", status := "pending",
          createdAt := now, processedAt := none },
       { d with withdraws := d.withdraws ++
          [{ id := newId, userId := user.id, amount := amount,
             upi := upi.getD "", utr := utr.getD "", status := "pending",
             createdAt := now, processedAt := none }] })
      ∧ (requestWithdrawal d uid amount upi utr newId now).2.users
          = d.users := by
  have h1 : ¬ amount ≤ 0 := not_le.mpr hpos
  refine ⟨?_, ?_⟩ <;>
    simp only [requestWithdrawal, if_neg h1, hu, if_neg hbal]

def dW : DB :=
  { users := [{ id := "u1", credits := 100 }],
    withdraws := [], photos := [], gameConfigs := [], gamePlays := [],
    systemFees := [] }

/-- Witness for C9 at a concrete store: user u1 holds 100 credits and
requests 50. -/
theorem C9_witness :
    requestWithdrawal dW "u1" 50 none none "w1" 7 =
      (Res.ok
        { id := "w1", userId := "u1", amount := 50, upi := "",
          utr := "", status := "pending", createdAt := 7,
          processedAt := none },
       { dW with withdraws := dW.withdraws ++
          [{ id := "w1", userId := "u1", amount := 50, upi := "",
             utr := "", status := "pending", createdAt := 7,
             processedAt := none }] })
      ∧ (requestWithdrawal dW "u1" 50 none none "w1" 7).2.users
          = dW.users := by
  have h := C9_requestWithdrawal_pending_no_debit dW "u1" 50 none none
    "w1" 7 { id := "u1", credits := 100 } (by norm_num) (by rfl)
    (by norm_num)
  exact h

/-! ### C10: approving for an absent user succeeds without any debit -/

/-- C10: approving a withdrawal whose user is absent from the ledger
still succeeds — the request status becomes approved with the
processing timestamp — while the users list, hence every account
balance, is untouched. -/
theorem C10_approve_absent_user_no_debit
    (d : DB) (wid : String) (now : Nat) (w : Withdraw)
    (hw : d.withdraws.find? (fun x => x.id == wid) = some w)
    (hu : d.users.find? (fun u => u.id == w.userId) = none) :
    decideWithdrawal d wid "approve" now =
      (Res.ok { w with status := "approved", processedAt := some now },
       { d with
         withdraws :=
           updateFirst (fun x => x.id == wid)
             (fun _ =>
               { w with status := "approved", processedAt := some now })
             d.withdraws })
      ∧ (decideWithdrawal d wid "approve" now).2.users = d.users := by
  refine ⟨?_, ?_⟩ <;> simp [decideWithdrawal, hw, hu]

def dGhost : DB :=
  { users := [{ id := "u1", credits := 100 }],
    withdraws := [{ id := "w1", userId := "ghost", amount := 50,
                    upi := "", utr := "", status := "pending",
                    createdAt := 0, processedAt := none }],
    photos := [], gameConfigs := [], gamePlays := [], systemFees := [] }

/-- Witness for C10 at a concrete store: the withdrawal references user
id ghost, which no user record carries. -/
theorem C10_witness :
    decideWithdrawal dGhost "w1" "approve" 9 =
      (Res.ok { id := "w1", userId := "ghost", amount := 50, upi := "",
                utr := "", status := "approved", createdAt := 0,
                processedAt := some 9 },
       { dGhost with
         withdraws :=
           updateFirst (fun x => x.id == "w1")
             (fun _ => { id := "w1", userId := "ghost", amount := 50,
                         upi := "", utr := "", status := "approved",
                         createdAt := 0, processedAt := some 9 })
             dGhost.withdraws })
      ∧ (decideWithdrawal dGhost "w1" "approve" 9).2.users
          = dGhost.users := by
  have h := C10_approve_absent_user_no_debit dGhost "w1" 9
    { id := "w1", userId := "ghost", amount := 50, upi := "", utr := "",
      status := "pending", createdAt := 0, processedAt := none }
    (by rfl) (by rfl)
  exact h

/-! ### C2 and C3: the decision handler has no guards at all -/

/-- C2 (amended): decideWithdrawal never inspects the current status.
For any found request — pending or already decided — approve sets the
status to approved, restamps the processing timestamp and debits the
amount from the user (again); reject sets the status to rejected and
leaves the users list unchanged. No InvalidTransition error exists. -/
theorem C2_decideWithdrawal_no_status_guard
    (d : DB) (wid : String) (now : Nat) (w : Withdraw) (user : User)
    (hw : d.withdraws.find? (fun x => x.id == wid) = some w)
    (hu : d.users.find? (fun u => u.id == w.userId) = some user) :
    decideWithdrawal d wid "approve" now =
      (Res.ok { w with status := "approved", processedAt := some now },
       { d with
         withdraws :=
           updateFirst (fun x => x.id == wid)
             (fun _ =>
               { w with status := "approved", processedAt := some now })
             d.withdraws,
         users :=
           updateFirst (fun u => u.id == w.userId)
             (fun _ => { user with credits := user.credits - w.amount })
             d.users })
    ∧ decideWithdrawal d wid "reject" now =
      (Res.ok { w with status := "rejected", processedAt := some now },
       { d with
         withdraws :=
           updateFirst (fun x => x.id == wid)
             (fun _ =>
               { w with status := "rejected", processedAt := some now })
             d.withdraws }) := by
  refine ⟨?_, ?_⟩ <;> simp [decideWithdrawal, hw, hu]

def dDone : DB :=
  { users := [{ id := "u1", credits := 50 }],
    withdraws := [{ id := "w1", userId := "u1", amount := 50, upi := "",
                    utr := "", status := "approved", createdAt := 0,
                    processedAt := some 1 }],
    photos := [], gameConfigs := [], gamePlays := [], systemFees := [] }

/-- C2 witness: concrete store in which request w1 is already approved;
re-approving succeeds and debits user u1 from 50 down to 0. -/
theorem C2_witness :
    (decideWithdrawal dDone "w1" "approve" 2).1 =
      Res.ok { id := "w1", userId := "u1", amount := 50, upi := "",
               utr := "", status := "approved", createdAt := 0,
               processedAt := some 2 }
    ∧ creditsOf (decideWithdrawal dDone "w1" "approve" 2).2 "u1"
        = some 0 := by
  have h := (C2_decideWithdrawal_no_status_guard dDone "w1" 2
    { id := "w1", userId := "u1", amount := 50, upi := "", utr := "",
      status := "approved", createdAt := 0, processedAt := some 1 }
    { id := "u1", credits := 50 } (by rfl) (by rfl)).1
  rw [h]
  refine ⟨rfl, ?_⟩
  norm_num [creditsOf, updateFirst]

/-- C2 counterexample: calling approve on the non-pending (already
approved) request w1 does not fail with any error — it returns ok with
a restamped processing time — and it changes both the request record
and the user balance (50 becomes 0). -/
theorem C2_counterexample :
    (decideWithdrawal dDone "w1" "approve" 2).1 =
      Res.ok { id := "w1", userId := "u1", amount := 50, upi := "",
               utr := "", status := "approved", createdAt := 0,
               processedAt := some 2 }
    ∧ creditsOf (decideWithdrawal dDone "w1" "approve" 2).2 "u1"
        = some 0
    ∧ creditsOf dDone "u1" = some 50
    ∧ (decideWithdrawal dDone "w1" "approve" 2).2 ≠ dDone := by
  refine ⟨by rfl, by norm_num [decideWithdrawal, dDone, creditsOf,
    updateFirst], by rfl, ?_⟩
  intro h
  have h2 : creditsOf (decideWithdrawal dDone "w1" "approve" 2).2 "u1"
      = some 0 := by
    norm_num [decideWithdrawal, dDone, creditsOf, updateFirst]
  rw [h] at h2
  simp [dDone, creditsOf] at h2

/-- C3 (amended): approving a pending withdrawal while the user balance
is strictly below the requested amount does not fail: the request is
approved, the processing timestamp is stamped, and the full amount is
debited anyway, driving the balance negative. -/
theorem C3_approve_underfunded_debits_anyway
    (d : DB) (wid : String) (now : Nat) (w : Withdraw) (user : User)
    (hw : d.withdraws.find? (fun x => x.id == wid) = some w)
    (_hpend : w.status = "pending")
    (hu : d.users.find? (fun u => u.id == w.userId) = some user)
    (hshort : user.credits < w.amount) :
    (decideWithdrawal d wid "approve" now).1 =
      Res.ok { w with status := "approved", processedAt := some now }
    ∧ creditsOf (decideWithdrawal d wid "approve" now).2 w.userId
        = some (user.credits - w.amount)
    ∧ user.credits - w.amount < 0 := by
  have hid0 := List.find?_some hu
  have hid : ((fun u : User => u.id == w.userId)
      { user with credits := user.credits - w.amount }) = true := hid0
  refine ⟨?_, ?_, sub_neg.mpr hshort⟩
  · simp [decideWithdrawal, hw, hu]
  · simp [decideWithdrawal, hw, hu, creditsOf]
    rw [find?_updateFirst (fun u : User => u.id == w.userId)
      { user with credits := user.credits - w.amount } hid, hu]
    exact ⟨_, rfl, rfl⟩

def dPend : DB :=
  { users := [{ id := "u1", credits := 30 }],
    withdraws := [{ id := "w1", userId := "u1", amount := 50, upi := "",
                    utr := "", status := "pending", createdAt := 0,
                    processedAt := none }],
    photos := [], gameConfigs := [], gamePlays := [], systemFees := [] }

/-- C3 witness: user u1 holds 30 credits, request w1 asks for 50;
approval debits to -20 anyway. -/
theorem C3_witness :
    (decideWithdrawal dPend "w1" "approve" 4).1 =
      Res.ok { id := "w1", userId := "u1", amount := 50, upi := "",
               utr := "", status := "approved", createdAt := 0,
               processedAt := some 4 }
    ∧ creditsOf (decideWithdrawal dPend "w1" "approve" 4).2 "u1"
        = some (30 - 50)
    ∧ (30 : ℚ) - 50 < 0 := by
  have h := C3_approve_underfunded_debits_anyway dPend "w1" 4
    { id := "w1", userId := "u1", amount := 50, upi := "", utr := "",
      status := "pending", createdAt := 0, processedAt := none }
    { id := "u1", credits := 30 } (by rfl) (by rfl) (by rfl)
    (by norm_num)
  exact h

/-- C3 counterexample: approving the pending withdrawal of 50 for user
u1 whose balance is 30 does not fail with InsufficientFunds — it
returns ok — the debit does occur, and the status does not remain
pending. -/
theorem C3_counterexample :
    (decideWithdrawal dPend "w1" "approve" 4).1 =
      Res.ok { id := "w1", userId := "u1", amount := 50, upi := "",
               utr := "", status := "approved", createdAt := 0,
               processedAt := some 4 }
    ∧ creditsOf (decideWithdrawal dPend "w1" "approve" 4).2 "u1"
        = some (-20)
    ∧ ((decideWithdrawal dPend "w1" "approve" 4).2.withdraws.find?
        (fun x => x.id == "w1")).map (fun x => x.status)
        = some "approved" := by
  refine ⟨by rfl, ?_, by rfl⟩
  norm_num [decideWithdrawal, dPend, creditsOf, updateFirst]

/-- Variant of `find?_map_replace` where the write-back predicate `p1`
is weaker than the lookup predicate `p2` (the vote handler writes back
by photo id but looks photos up by id and challenge): when some element
matched `p2` before, the lookup after the write-back returns the
updated record. -/
theorem find?_map_replace_imp (p1 p2 : α → Bool) (v : α)
    (hv : p2 v = true) (himp : ∀ x, p2 x = true → p1 x = true) :
    ∀ l : List α, (l.find? p2).isSome →
      (l.map (fun x => if p1 x then v else x)).find? p2 = some v
  | [], h => by simp at h
  | a :: l, h => by
    by_cases h1 : p1 a = true
    · simp [h1, List.find?_cons, hv]
    · have h2 : p2 a = false := by
        cases hp : p2 a
        · rfl
        · exact absurd (himp a hp) (by simpa using h1)
      have h' : (l.find? p2).isSome := by
        simpa [List.find?_cons, h2] using h
      simp [h1, h2, List.find?_cons,
        find?_map_replace_imp p1 p2 v hv himp l h']

/-! ### C7: the vote contract -/

/-- C7: the vote count defaults to 1 when absent or non-positive; a
missing photo fails with 404 leaving the store unchanged; with
totalCost = count x 10, a balance below totalCost fails with
Insufficient credits leaving the store unchanged; otherwise the balance
drops by totalCost and the photo tally rises by count in the one
resulting store. -/
theorem C7_vote_contract (d : DB) (uid cid pid : String)
    (amt : Option ℚ) :
    (voteCount none = 1 ∧ ∀ q : ℚ, q ≤ 0 → voteCount (some q) = 1)
    ∧ (d.photos.find? (fun p => p.id == pid && p.challengeId == cid)
         = none →
       vote d uid cid pid amt = (Res.err 404 "Photo not found", d))
    ∧ ∀ photo user,
        d.photos.find? (fun p => p.id == pid && p.challengeId == cid)
          = some photo →
        d.users.find? (fun u => u.id == uid) = some user →
        (user.credits < voteCount amt * 10 →
          vote d uid cid pid amt
            = (Res.err 400 "Insufficient credits", d))
        ∧ (¬ user.credits < voteCount amt * 10 →
          (vote d uid cid pid amt).1 =
            Res.ok ({ photo with votes := photo.votes + voteCount amt },
                    user.credits - voteCount amt * 10)
          ∧ creditsOf (vote d uid cid pid amt).2 uid
              = some (user.credits - voteCount amt * 10)
          ∧ votesOf (vote d uid cid pid amt).2 cid pid
              = some (photo.votes + voteCount amt)) := by
  refine ⟨⟨by norm_num [voteCount], ?_⟩, ?_, ?_⟩
  · intro q hq
    rcases eq_or_lt_of_le hq with h | h
    · simp [voteCount, ← h]
    · have hne : q ≠ 0 := ne_of_lt h
      simp [voteCount, hne, max_eq_left (h.le.trans zero_le_one)]
  · intro hph
    simp [vote, hph]
  · intro photo user hph hu
    have hid : user.id = uid := by simpa using List.find?_some hu
    subst hid
    have hp2 := List.find?_some hph
    simp only [Bool.and_eq_true, beq_iff_eq] at hp2
    obtain ⟨hp2a, hp2b⟩ := hp2
    subst hp2a; subst hp2b
    refine ⟨?_, ?_⟩
    · intro hlt
      simp [vote, hph, hu, if_pos hlt]
    · intro hge
      refine ⟨?_, ?_, ?_⟩
      · simp [vote, hph, hu, if_neg hge]
      · simp only [vote, hph, hu, if_neg hge, creditsOf]
        rw [find?_map_replace (fun u : User => u.id == user.id)
          { user with credits := user.credits - voteCount amt * 10 }
          (by simp) d.users, hu]
        rfl
      · simp only [vote, hph, hu, if_neg hge, votesOf]
        rw [find?_map_replace_imp (fun p : Photo => p.id == photo.id)
          (fun p : Photo =>
            p.id == photo.id && p.challengeId == photo.challengeId)
          { photo with votes := photo.votes + voteCount amt }
          (by simp)
          (by intro x hx; rw [Bool.and_eq_true] at hx; exact hx.1)
          d.photos (by rw [hph]; rfl)]
        rfl

def dVote : DB :=
  { users := [{ id := "u1", credits := 5 }],
    withdraws := [],
    photos := [{ id := "p1", challengeId := "c1", votes := 0 }],
    gameConfigs := [], gamePlays := [], systemFees := [] }

/-- Witness for C7: user u1 with balance 5 casts a vote with no amount
supplied (count defaults to 1, totalCost 10); the vote fails with
Insufficient credits and the store is unchanged. -/
theorem C7_witness :
    vote dVote "u1" "c1" "p1" none
      = (Res.err 400 "Insufficient credits", dVote) :=
  ((C7_vote_contract dVote "u1" "c1" "p1" none).2.2
    { id := "p1", challengeId := "c1", votes := 0 }
    { id := "u1", credits := 5 } (by rfl) (by rfl)).1
    (by norm_num [voteCount])

/-! ### C8: game-config updates are not validated -/

/-- C8 (amended): updateGameConfig performs no validation at all:
whenever the game exists, any patch — including one leaving odds and
payoutMultipliers with different lengths — is applied field by field
and stored; no ConfigInconsistent error exists. -/
theorem C8_updateGameConfig_no_validation
    (d : DB) (gid : String) (p : ConfigPatch) (kv : String × GameConfig)
    (hg : d.gameConfigs.find? (fun x => x.1 == gid) = some kv) :
    updateGameConfig d gid p =
      (Res.ok (applyPatch kv.2 p),
       { d with
         gameConfigs :=
           updateFirst (fun x => x.1 == gid)
             (fun _ => (gid, applyPatch kv.2 p)) d.gameConfigs }) := by
  simp [updateGameConfig, hg]

def cfgStart : GameConfig :=
  { enabled := true, cost := 10, feePercent := 5, odds := [1/2, 1/2],
    payoutMultipliers := [2, 0] }

def dCfg : DB :=
  { users := [], withdraws := [], photos := [],
    gameConfigs := [("g", cfgStart)], gamePlays := [], systemFees := [] }

def patchMism : ConfigPatch :=
  { cost := none, feePercent := none,
    payoutMultipliers := some [1, 2], odds := some [1/2],
    enabled := none }

def cfgMism : GameConfig :=
  { enabled := true, cost := 10, feePercent := 5, odds := [1/2],
    payoutMultipliers := [1, 2] }

/-- Witness for C8 at a concrete store: patching game g with a 1-entry
odds list and a 2-entry multiplier list succeeds and stores the
mismatched config. -/
theorem C8_witness :
    updateGameConfig dCfg "g" patchMism =
      (Res.ok (applyPatch cfgStart patchMism),
       { dCfg with
         gameConfigs :=
           updateFirst (fun x => x.1 == "g")
             (fun _ => ("g", applyPatch cfgStart patchMism))
             dCfg.gameConfigs }) :=
  C8_updateGameConfig_no_validation dCfg "g" patchMism ("g", cfgStart)
    (by rfl)

/-- C8 counterexample: the mismatched patch is not rejected — the
response is ok and the stored config for g has odds of length 1 but
payoutMultipliers of length 2. -/
theorem C8_counterexample :
    (updateGameConfig dCfg "g" patchMism).1 = Res.ok cfgMism
    ∧ ((updateGameConfig dCfg "g" patchMism).2.gameConfigs.find?
        (fun x => x.1 == "g")).map (fun x => x.2) = some cfgMism
    ∧ cfgMism.odds.length = 1
    ∧ cfgMism.payoutMultipliers.length = 2 :=
  ⟨rfl, rfl, rfl, rfl⟩

/-! ### C5: the two play handlers are not behaviorally equivalent -/

def dPlay : DB :=
  { users := [{ id := "u1", credits := 100 }],
    withdraws := [], photos := [],
    gameConfigs := [("g", { enabled := true, cost := 10, feePercent := 0,
                            odds := [1], payoutMultipliers := [2] })],
    gamePlays := [], systemFees := [] }

/-- C5: on the same store — user u1 with 100 credits, game g enabled at
cost 10, certain outcome with multiplier 2 — the cost/result
passthrough handler (given the same cost 10 and result 0) leaves 90
credits while the odds-and-fee-aware handler leaves 110: the two play
implementations present in the source are not behaviorally
equivalent. -/
theorem C5_two_play_handlers_differ :
    creditsOf (playSimple dPlay "u1" "g" 10 (some 0) "p" 0).2 "u1"
      = some 90
    ∧ creditsOf (playOdds dPlay "u1" "g" (1/2) "f" "p" 0).2 "u1"
      = some 110
    ∧ creditsOf (playSimple dPlay "u1" "g" 10 (some 0) "p" 0).2 "u1"
      ≠ creditsOf (playOdds dPlay "u1" "g" (1/2) "f" "p" 0).2 "u1" := by
  have h1 : creditsOf (playSimple dPlay "u1" "g" 10 (some 0) "p" 0).2 "u1"
      = some 90 := by
    norm_num [playSimple, dPlay, creditsOf, List.find?]
  have h2 : creditsOf (playOdds dPlay "u1" "g" (1/2) "f" "p" 0).2 "u1"
      = some 110 := by
    norm_num [playOdds, dPlay, creditsOf, chooseMultiplier, walkOdds,
      List.find?]
  refine ⟨h1, h2, ?_⟩
  rw [h1, h2]
  norm_num

/-! ### C4: balance equation of the odds-aware handler -/

/-- The fee of a wager: `Math.floor((cost * feePercent) / 100)`
(server.js line 311). -/
def playFee (cfg : GameConfig) : ℚ :=
  ((Int.floor (cfg.cost * cfg.feePercent / 100) : ℤ) : ℚ)

/-- The award of a wager: `Math.floor(effectiveStake * chosenMultiplier)`
with `effectiveStake = cost - fee` (server.js lines 312 and 330). -/
def playAward (cfg : GameConfig) (r : ℚ) : ℚ :=
  ((Int.floor ((cfg.cost - playFee cfg) *
      chooseMultiplier cfg.odds cfg.payoutMultipliers r) : ℤ) : ℚ)

/-- The odds walk never returns a negative multiplier when every
configured multiplier is nonnegative (the default is 0). -/
theorem walkOdds_nonneg (r : ℚ) :
    ∀ (os ms : List ℚ) (cum : ℚ), (∀ m ∈ ms, 0 ≤ m) →
      0 ≤ walkOdds r os ms cum
  | [], _, _, _ => le_refl 0
  | o :: os, ms, cum, h => by
    rw [walkOdds]
    split
    · cases ms with
      | nil => simp
      | cons m ms => exact h m (by simp)
    · exact walkOdds_nonneg r os ms.tail (cum + o)
        (fun m hm => h m (List.mem_of_mem_tail hm))

/-- Folding equation for `playFee`. -/
theorem playFee_def (cfg : GameConfig) :
    ((Int.floor (cfg.cost * cfg.feePercent / 100) : ℤ) : ℚ)
      = playFee cfg := rfl

/-- Folding equation for `playAward`. -/
theorem playAward_def (cfg : GameConfig) (r : ℚ) :
    ((Int.floor ((cfg.cost - playFee cfg) *
        chooseMultiplier cfg.odds cfg.payoutMultipliers r) : ℤ) : ℚ)
      = playAward cfg r := rfl

/-- Balance lookup after the play/vote write-back map, when the user was
found before. -/
theorem creditsOf_after_map (l : List User) (user : User) (c : ℚ)
    (hu : l.find? (fun u => u.id == user.id) = some user) :
    ((l.map (fun u => if u.id == user.id
        then { user with credits := c } else u)).find?
      (fun u => u.id == user.id)).map (fun u => u.credits) = some c := by
  rw [find?_map_replace (fun u : User => u.id == user.id)
    { user with credits := c } (by simp) l, hu]
  rfl

/-- C4: a successful play against an enabled config (with the data-model
bounds: cost nonnegative, feePercent between 0 and 100, nonnegative
payout multipliers) returns and stores exactly
balanceBefore - cost + award, where award = floor((cost - fee) x
chosenMultiplier) and fee = floor(cost x feePercent / 100). -/
theorem C4_playOdds_balance_equation
    (d : DB) (uid gid : String) (rnd : ℚ) (feeId playId : String)
    (now : Nat) (kv : String × GameConfig) (user : User)
    (hne : (gid == "") = false)
    (hg : d.gameConfigs.find? (fun x => x.1 == gid) = some kv)
    (hen : kv.2.enabled = true)
    (hu : d.users.find? (fun u => u.id == uid) = some user)
    (hbal : ¬ user.credits < kv.2.cost)
    (hc : 0 ≤ kv.2.cost) (_hf0 : 0 ≤ kv.2.feePercent)
    (hf1 : kv.2.feePercent ≤ 100)
    (hm : ∀ m ∈ kv.2.payoutMultipliers, 0 ≤ m) :
    (playOdds d uid gid rnd feeId playId now).1 =
      Res.ok (user.credits - kv.2.cost + playAward kv.2 rnd,
        { id := playId, userId := user.id, gameId := gid,
          cost := kv.2.cost, fee := some (playFee kv.2),
          effectiveStake := some (kv.2.cost - playFee kv.2),
          multiplier :=
            some (chooseMultiplier kv.2.odds kv.2.payoutMultipliers rnd),
          award := playAward kv.2 rnd, createdAt := now })
    ∧ creditsOf (playOdds d uid gid rnd feeId playId now).2 uid
        = some (user.credits - kv.2.cost + playAward kv.2 rnd) := by
  have hchosen : 0 ≤ chooseMultiplier kv.2.odds kv.2.payoutMultipliers rnd :=
    walkOdds_nonneg rnd kv.2.odds kv.2.payoutMultipliers 0 hm
  have hfee_le : playFee kv.2 ≤ kv.2.cost := by
    have h2 : kv.2.cost * kv.2.feePercent / 100 ≤ kv.2.cost := by
      rw [div_le_iff₀ (by norm_num : (0:ℚ) < 100)]
      exact mul_le_mul_of_nonneg_left hf1 hc
    exact le_trans (Int.floor_le _) h2
  have hstake : 0 ≤ kv.2.cost - playFee kv.2 := sub_nonneg.mpr hfee_le
  have haward : 0 ≤ playAward kv.2 rnd := by
    have h0 : (0 : ℤ) ≤ Int.floor ((kv.2.cost - playFee kv.2) *
        chooseMultiplier kv.2.odds kv.2.payoutMultipliers rnd) :=
      Int.le_floor.mpr (by exact_mod_cast mul_nonneg hstake hchosen)
    unfold playAward
    exact_mod_cast h0
  have hite : (if 0 < playAward kv.2 rnd
      then user.credits - kv.2.cost + playAward kv.2 rnd
      else user.credits - kv.2.cost)
      = user.credits - kv.2.cost + playAward kv.2 rnd := by
    rcases haward.lt_or_eq with h | h
    · rw [if_pos h]
    · rw [if_neg (by rw [← h]; exact lt_irrefl 0), ← h, add_zero]
  have hid : user.id = uid := by simpa using List.find?_some hu
  subst hid
  constructor
  · simp only [playOdds, hne, Bool.false_eq_true, if_false, hg, hen,
      Bool.not_true, not_true, hu, if_neg hbal]
    simp only [playFee_def, playAward_def, gt_iff_lt, hite]
  · simp only [playOdds, hne, Bool.false_eq_true, if_false, hg, hen,
      Bool.not_true, not_true, hu, if_neg hbal, creditsOf]
    rw [creditsOf_after_map d.users user _ hu]
    simp only [playFee_def, playAward_def, gt_iff_lt, hite]

def cfgW : GameConfig :=
  { enabled := true, cost := 100, feePercent := 10, odds := [1],
    payoutMultipliers := [2] }

def dPlayW : DB :=
  { users := [{ id := "u1", credits := 1000 }],
    withdraws := [], photos := [], gameConfigs := [("g", cfgW)],
    gamePlays := [], systemFees := [] }

/-- Witness for C4 at the spec scenario: cost 100, feePercent 10 (fee
10, stake 90), multiplier 2, award 180; balance 1000 becomes 1080. -/
theorem C4_witness :
    creditsOf (playOdds dPlayW "u1" "g" (1/2) "f" "p" 0).2 "u1"
      = some 1080
    ∧ playFee cfgW = 10 ∧ playAward cfgW (1/2) = 180 := by
  have hfee : playFee cfgW = 10 := by
    norm_num [playFee, cfgW]
  have haw : playAward cfgW (1/2) = 180 := by
    norm_num [playAward, playFee, cfgW, chooseMultiplier, walkOdds]
  have h := (C4_playOdds_balance_equation dPlayW "u1" "g" (1/2) "f" "p" 0
    ("g", cfgW) { id := "u1", credits := 1000 } (by rfl) (by rfl)
    (by rfl) (by rfl) (by norm_num [cfgW]) (by norm_num [cfgW])
    (by norm_num [cfgW]) (by norm_num [cfgW])
    (by norm_num [cfgW])).2
  refine ⟨?_, hfee, haw⟩
  rw [h]
  norm_num [cfgW, playAward, playFee, chooseMultiplier, walkOdds]

/-! ### C6: the odds walk picks the first prefix sum reaching the sample -/

/-- The walk, started at accumulator `cum`, picks the multiplier at the
first index whose prefix sum (shifted by `cum`) reaches or exceeds the
sample, and 0 when no index does. -/
theorem walkOdds_eq_find (r : ℚ) :
    ∀ (os ms : List ℚ) (cum : ℚ),
      walkOdds r os ms cum =
        ((List.range os.length).find?
          (fun i => decide (r ≤ cum + ((os.take (i+1)).sum)))).elim 0
          (fun i => ms.getD i 0)
  | [], ms, cum => by simp [walkOdds]
  | o :: os, ms, cum => by
    rw [walkOdds]
    by_cases h : r ≤ cum + o
    · rw [if_pos h]
      have hpred : (fun i =>
          decide (r ≤ cum + (((o :: os).take (i+1)).sum))) 0 = true := by
        simp [h]
      rw [List.length_cons, List.range_succ_eq_map,
        List.find?_cons_of_pos (p := fun i : Nat =>
          decide (r ≤ cum + (((o :: os).take (i+1)).sum))) _ hpred,
        Option.elim_some]
      cases ms <;> rfl
    · rw [if_neg h]
      rw [walkOdds_eq_find r os ms.tail (cum + o)]
      have hpred : ¬ (fun i =>
          decide (r ≤ cum + (((o :: os).take (i+1)).sum))) 0 = true := by
        simp [h]
      rw [List.length_cons, List.range_succ_eq_map,
        List.find?_cons_of_neg (p := fun i : Nat =>
          decide (r ≤ cum + (((o :: os).take (i+1)).sum))) _ hpred,
        List.find?_map]
      have hps : ((fun i =>
            decide (r ≤ cum + (((o :: os).take (i+1)).sum))) ∘ Nat.succ)
          = (fun i => decide (r ≤ (cum + o) + ((os.take (i+1)).sum))) := by
        funext i
        simp [List.take_succ_cons, add_assoc]
      rw [hps]
      cases hf : (List.range os.length).find?
          (fun i => decide (r ≤ (cum + o) + ((os.take (i+1)).sum))) with
      | none => rfl
      | some i =>
        cases ms <;> simp

/-- C6: the chosen multiplier is the one at the first index whose
cumulative odds sum reaches or exceeds the sample r (0 when the walk
runs out); sample 1/20 against odds [1/10, 2/10, 7/10] and multipliers
[5, 2, 0] picks index 0, multiplier 5; and when the (nonnegative) odds
sum to less than 1 and r exceeds the full accumulated sum, the chosen
multiplier is 0 — a total loss, not an error. -/
theorem C6_odds_walk_first_index :
    (∀ (odds ms : List ℚ) (r : ℚ),
      chooseMultiplier odds ms r =
        ((List.range odds.length).find?
          (fun i => decide (r ≤ ((odds.take (i+1)).sum)))).elim 0
          (fun i => ms.getD i 0))
    ∧ chooseMultiplier [1/10, 2/10, 7/10] [5, 2, 0] (1/20) = 5
    ∧ (∀ (odds ms : List ℚ) (r : ℚ),
        (∀ o ∈ odds, 0 ≤ o) → odds.sum < 1 → odds.sum < r →
        chooseMultiplier odds ms r = 0) := by
  have hmain : ∀ (odds ms : List ℚ) (r : ℚ),
      chooseMultiplier odds ms r =
        ((List.range odds.length).find?
          (fun i => decide (r ≤ ((odds.take (i+1)).sum)))).elim 0
          (fun i => ms.getD i 0) := by
    intro odds ms r
    rw [chooseMultiplier, walkOdds_eq_find]
    simp only [zero_add]
  refine ⟨hmain, by norm_num [chooseMultiplier, walkOdds], ?_⟩
  intro odds ms r hnn hs1 hsr
  rw [hmain]
  have hnone : (List.range odds.length).find?
      (fun i => decide (r ≤ ((odds.take (i+1)).sum))) = none := by
    rw [List.find?_eq_none]
    intro i _
    simp only [decide_eq_true_eq, not_le]
    have hle : (odds.take (i+1)).sum ≤ odds.sum := by
      conv_rhs => rw [← List.take_append_drop (i+1) odds]
      rw [List.sum_append]
      have hd : 0 ≤ (odds.drop (i+1)).sum :=
        List.sum_nonneg (fun x hx => hnn x (List.mem_of_mem_drop hx))
      linarith
    linarith
  rw [hnone, Option.elim_none]

/-- Witness for C6: odds [1/10] sum to 1/10 < 1 and the sample 1/2
exceeds it, so the play is a total loss (multiplier 0). -/
theorem C6_witness : chooseMultiplier [1/10] [5] (1/2) = 0 :=
  C6_odds_walk_first_index.2.2 [1/10] [5] (1/2)
    (by norm_num) (by norm_num) (by norm_num)

/-! ### C1: balance guards hold for play and vote, not for approval -/

def dSeed : DB :=
  { users := [{ id := "u1", credits := 500 }],
    withdraws := [],
    photos := [{ id := "p1", challengeId := "c1", votes := 0 }],
    gameConfigs := [], gamePlays := [], systemFees := [] }

def dAfterReq : DB := (requestWithdrawal dSeed "u1" 50 none none "w1" 1).2

def dAfterVote : DB := (vote dAfterReq "u1" "c1" "p1" (some 47)).2

/-- The state reached from a fresh signup balance of 500 by requesting
a withdrawal of 50 and then casting 47 votes (cost 470) holds user u1
at 30 credits; approving the request then leaves -20. -/
theorem approve_reaches_negative :
    creditsOf dAfterVote "u1" = some 30
    ∧ (decideWithdrawal dAfterVote "w1" "approve" 3).1 =
        Res.ok { id := "w1", userId := "u1", amount := 50, upi := "",
                 utr := "", status := "approved", createdAt := 1,
                 processedAt := some 3 }
    ∧ creditsOf (decideWithdrawal dAfterVote "w1" "approve" 3).2 "u1"
        = some (-20) := by
  have h30 : creditsOf dAfterVote "u1" = some 30 := by
    norm_num [dAfterVote, dAfterReq, dSeed, vote, requestWithdrawal,
      voteCount, max_def, creditsOf, List.find?]
  refine ⟨h30, ?_, ?_⟩ <;>
    norm_num [dAfterVote, dAfterReq, dSeed, vote, requestWithdrawal,
      decideWithdrawal, voteCount, max_def, creditsOf, updateFirst,
      List.find?]

/-- C1 counterexample: starting from the signup balance of 500, the
operation chain request-withdrawal(50), vote(47) (a legal debit of 470
leaving 30), approve — every step a modelled ledger operation — ends
with user u1 at -20 credits, and the approval that overdrew the
balance returned ok rather than an InsufficientFunds error. -/
theorem C1_counterexample :
    creditsOf dSeed "u1" = some 500
    ∧ (requestWithdrawal dSeed "u1" 50 none none "w1" 1).1 =
        Res.ok { id := "w1", userId := "u1", amount := 50, upi := "",
                 utr := "", status := "pending", createdAt := 1,
                 processedAt := none }
    ∧ creditsOf dAfterVote "u1" = some 30
    ∧ (decideWithdrawal dAfterVote "w1" "approve" 3).1 =
        Res.ok { id := "w1", userId := "u1", amount := 50, upi := "",
                 utr := "", status := "approved", createdAt := 1,
                 processedAt := some 3 }
    ∧ creditsOf (decideWithdrawal dAfterVote "w1" "approve" 3).2 "u1"
        = some (-20) := by
  refine ⟨by rfl, ?_, approve_reaches_negative.1,
    approve_reaches_negative.2.1, approve_reaches_negative.2.2⟩
  norm_num [requestWithdrawal, dSeed, List.find?]

/-- C1 (amended): the debit operations of play (both handlers) and vote
are guarded — when the debit would exceed the balance they fail with
Insufficient credits and leave the store unchanged — but withdrawal
approval debits unconditionally, so a negative balance is reachable
through the approval path (approving 50 at balance 30 leaves -20). -/
theorem C1_debit_guards_except_approval
    (d : DB) (uid cid pid gid : String) (amt : Option ℚ) (cost rnd : ℚ)
    (result : Option ℚ) (i1 i2 i3 : String) (now : Nat) :
    (∀ photo user,
      d.photos.find? (fun p => p.id == pid && p.challengeId == cid)
        = some photo →
      d.users.find? (fun u => u.id == uid) = some user →
      user.credits < voteCount amt * 10 →
      vote d uid cid pid amt = (Res.err 400 "Insufficient credits", d))
    ∧ (∀ user, (gid == "") = false →
      d.users.find? (fun u => u.id == uid) = some user →
      user.credits < cost →
      playSimple d uid gid cost result i1 now =
        (Res.err 400 "Insufficient credits", d))
    ∧ (∀ kv user, (gid == "") = false →
      d.gameConfigs.find? (fun x => x.1 == gid) = some kv →
      kv.2.enabled = true →
      d.users.find? (fun u => u.id == uid) = some user →
      user.credits < kv.2.cost →
      playOdds d uid gid rnd i2 i3 now =
        (Res.err 400 "Insufficient credits", d))
    ∧ creditsOf (decideWithdrawal dAfterVote "w1" "approve" 3).2 "u1"
        = some (-20) := by
  refine ⟨?_, ?_, ?_, approve_reaches_negative.2.2⟩
  · intro photo user hph hu hlt
    simp [vote, hph, hu, if_pos hlt]
  · intro user hne hu hlt
    simp [playSimple, hne, hu, if_pos hlt]
  · intro kv user hne hg hen hu hlt
    simp [playOdds, hne, hg, hen, hu, if_pos hlt]

def dPoor : DB :=
  { users := [{ id := "u1", credits := 5 }],
    withdraws := [], photos := [], gameConfigs := [("g", cfgW)],
    gamePlays := [], systemFees := [] }

/-- Witness for C1 at a concrete store: user u1 with 5 credits cannot
afford the enabled game g at cost 100; the odds-aware play fails and
the store is unchanged. -/
theorem C1_witness :
    playOdds dPoor "u1" "g" (1/2) "fx" "px" 0
      = (Res.err 400 "Insufficient credits", dPoor) :=
  (C1_debit_guards_except_approval dPoor "u1" "c" "p" "g" none 0 (1/2)
    none "i" "fx" "px" 0).2.2.1 ("g", cfgW) { id := "u1", credits := 5 }
    (by rfl) (by rfl) (by rfl) (by rfl) (by norm_num [cfgW])
